import Mathlib

/-!
Verification of the STLC agentic pipeline (`src/STLC/agentic_pipeline_stlc.py`).

The pipeline is a linear four-stage state machine built on a state graph:
`start → fetch_jira_story → generate_test_cases → update_jira_with_test_cases`.
Each stage consumes the running `GraphState` and returns a partial update that
is merged into the state.  External collaborators (the JIRA tracker client and
the local language-model endpoint) are modelled as explicit functions returning
`Except`, and every collaborator call is recorded in an event trace so that
claims about which calls happen (or do not happen) can be stated.

Python string primitives used by the source (`str.split("\n")`, `str.strip()`,
`str.startswith("-")`, `sep.join(...)`) are embedded as executable functions
with Python's semantics.
-/

/-- Python whitespace for `str.strip()` (ASCII range: space, tab, newline,
carriage return, vertical tab, form feed). -/
def isPySpace (c : Char) : Bool :=
  c = ' ' || c = '\t' || c = '\n' || c = '\r' || c = '\x0b' || c = '\x0c'

/-- `str.strip()` on a list of characters: drop leading and trailing
Python whitespace. -/
def pyStripList (l : List Char) : List Char :=
  ((l.dropWhile isPySpace).reverse.dropWhile isPySpace).reverse

/-- Python `s.strip()`. -/
def pyStrip (s : String) : String :=
  ⟨pyStripList s.data⟩

/-- Python `s.split("\n")` on a list of characters: split at every newline;
the empty string yields `[""]`, a trailing newline yields a trailing `""`. -/
def splitLinesList : List Char → List (List Char)
  | [] => [[]]
  | c :: cs =>
    if c = '\n' then [] :: splitLinesList cs
    else
      match splitLinesList cs with
      | [] => [[c]]
      | h :: t => (c :: h) :: t

/-- Python `s.split("\n")`. -/
def splitLines (s : String) : List String :=
  (splitLinesList s.data).map String.mk

/-- Python `s.startswith("-")`. -/
def startsWithDash (s : String) : Bool :=
  match s.data with
  | [] => false
  | c :: _ => c = '-'

/-- Python `sep.join(l)`. -/
def pyJoin (sep : String) : List String → String
  | [] => ""
  | [s] => s
  | s :: rest => s ++ sep ++ pyJoin sep rest

/-- Python truthiness of a string: non-empty. -/
def pyTruthy (s : String) : Bool :=
  !s.data.isEmpty

/-- The acceptance-criteria list comprehension in `fetch_story`:
`[line.strip() for line in description.split("\n") if line.strip().startswith("-")]`. -/
def extract_acceptance_criteria (description : String) : List String :=
  ((splitLines description).filter (fun line => startsWithDash (pyStrip line))).map pyStrip

/-- The spec's formulation of acceptance-criteria extraction: split the
description into lines, trim each line, keep exactly the trimmed lines that
start with `-`, in source order. -/
def spec_acceptance_criteria (description : String) : List String :=
  ((splitLines description).map pyStrip).filter startsWithDash

/-- The test-case list comprehension in `generate_cases`:
`[line.strip() for line in generated_text.split("\n") if line.strip()]`. -/
def extract_test_cases (text : String) : List String :=
  ((splitLines text).filter (fun line => pyTruthy (pyStrip line))).map pyStrip

/-- The spec's formulation: the non-empty trimmed lines of the model's
returned text, in order. -/
def spec_test_cases (text : String) : List String :=
  ((splitLines text).map pyStrip).filter pyTruthy

/-- Filtering after mapping is mapping after filtering the composite predicate. -/
theorem filter_map_comm (f : String → String) (p : String → Bool) (l : List String) :
    (l.filter (fun x => p (f x))).map f = (l.map f).filter p := by
  induction l with
  | nil => rfl
  | cons x xs ih =>
    by_cases h : p (f x) <;> simp [List.filter, h, ih]

/-- Python `str(x)` of an optional string: `None` prints as `"None"`. -/
def optStr : Option String → String
  | some s => s
  | none => "None"

/-- The `JiraStory` Pydantic model of `agentic_pipeline_stlc.py`: all four
fields are required (`description: str` there, unlike the standalone
`jira_user_story.py` schema where it is `Optional[str]`). -/
structure JiraStory where
  key : String
  summary : String
  description : String
  acceptance_criteria : List String
  deriving DecidableEq, Repr

/-- The `GraphState` Pydantic model: every field defaults to `None`. -/
structure GraphState where
  issue_key : Option String := none
  jira_story : Option JiraStory := none
  test_cases : Option (List String) := none
  update_status : Option String := none
  deriving DecidableEq, Repr

/-- A partial state update returned by a stage (the dictionary a stage node
returns, merged into the running state by the graph executor).  `issue_key`
is doubly optional because `start` returns `{"issue_key": data.issue_key}`,
whose value may itself be `None`. -/
structure StateUpdate where
  issue_key : Option (Option String) := none
  jira_story : Option JiraStory := none
  test_cases : Option (List String) := none
  update_status : Option String := none
  deriving DecidableEq, Repr

/-- Merge a stage's partial update into the running state: a key present in
the returned dictionary overrides the field, an absent key leaves it. -/
def mergeState (s : GraphState) (u : StateUpdate) : GraphState where
  issue_key := match u.issue_key with
    | some v => v
    | none => s.issue_key
  jira_story := match u.jira_story with
    | some v => some v
    | none => s.jira_story
  test_cases := match u.test_cases with
    | some v => some v
    | none => s.test_cases
  update_status := match u.update_status with
    | some v => some v
    | none => s.update_status

/-- What the tracker collaborator returns for an issue: `issue.key`,
`issue.fields.summary`, `issue.fields.description`, any of which may be
absent (`None`). -/
structure RawIssue where
  key : Option String
  summary : Option String
  description : Option String
  deriving DecidableEq, Repr

/-- Tracker collaborator failures (spec taxonomy `TrackerError`). -/
inductive TrackerFailure where
  | notFound
  | authError
  | networkError
  deriving DecidableEq, Repr

/-- Language-model collaborator failures (spec taxonomy `ModelError`):
non-success HTTP status from `raise_for_status`, or a malformed body at
`response.json()["choices"][0]["text"]`. -/
inductive ModelFailure where
  | httpError (code : Nat)
  | malformedResponse
  deriving DecidableEq, Repr

/-- Python-level failures raised inside a stage: a Pydantic
`ValidationError`, an `AttributeError` (attribute access on `None`), or a
`TypeError` (iterating `None`). -/
inductive PyFailure where
  | validationError
  | attributeError
  | typeError
  deriving DecidableEq, Repr

/-- Everything that can abort a pipeline run. -/
inductive PipelineError where
  | trackerError (e : TrackerFailure)
  | modelError (e : ModelFailure)
  | pyError (e : PyFailure)
  deriving DecidableEq, Repr

/-- One collaborator call made during a run, with its arguments. -/
inductive CallEvent where
  | fetchIssue (key : Option String)
  | modelComplete (prompt : String)
  | addComment (key : Option String) (body : String)
  deriving DecidableEq, Repr

/-- The external collaborators: `jira_client.issue`, the completion POST to
the local model server, and `jira_client.add_comment`.  Each is a function
of the arguments the source passes, returning either a value or a failure. -/
structure Collaborators where
  fetch_issue : Option String → Except TrackerFailure RawIssue
  complete : String → Except ModelFailure String
  add_comment : Option String → String → Except TrackerFailure Unit

/-- Pydantic construction of `JiraStory` in `agentic_pipeline_stlc.py`:
all three string fields are required, so a missing (`None`) `key`,
`summary` or `description` raises a `ValidationError`. -/
def mkJiraStory (key summary description : Option String)
    (acceptance_criteria : List String) : Except PyFailure JiraStory :=
  match key, summary, description with
  | some k, some s, some d => .ok ⟨k, s, d, acceptance_criteria⟩
  | _, _, _ => .error .validationError

/-- The story-building body of `fetch_story`: evaluating the
`acceptance_criteria` list comprehension calls
`issue.fields.description.split("\n")`, which raises `AttributeError`
when the description is `None`; otherwise `JiraStory(...)` is constructed
(and validated by Pydantic). -/
def build_story (issue : RawIssue) : Except PyFailure JiraStory :=
  match issue.description with
  | none => .error .attributeError
  | some desc =>
      mkJiraStory issue.key issue.summary (some desc) (extract_acceptance_criteria desc)

/-- The f-string prompt template of `generate_cases`, verbatim. -/
def build_prompt (story : JiraStory) : String :=
  "\n    Generate test cases for the following JIRA story:\n\n    Title: "
    ++ story.summary
    ++ "\n    Description: "
    ++ story.description
    ++ "\n    Acceptance Criteria:\n    "
    ++ pyJoin ", " story.acceptance_criteria
    ++ "\n\n    Please provide detailed test cases.\n    "

/-- The comment body of `update_jira`:
`"### Generated Test Cases:\n" + "\n".join(f"- {tc}" for tc in test_cases)`. -/
def comment_body (test_cases : List String) : String :=
  "### Generated Test Cases:\n" ++ pyJoin "\n" (test_cases.map (fun tc => "- " ++ tc))

/-- The confirmation string of `update_jira`:
`f"Test cases added to JIRA issue {issue_key}"`. -/
def status_message (issue_key : Option String) : String :=
  "Test cases added to JIRA issue " ++ optStr issue_key

/-- Stage 1, `start`: returns `{"issue_key": data.issue_key}`. -/
def start (data : GraphState) : StateUpdate :=
  { issue_key := some data.issue_key }

/-- Stage 2, `fetch_story`: calls `jira_client.issue(issue_key)`, builds a
`JiraStory` from the result, and returns `{"jira_story": jira_story}`.
Also returns the collaborator calls it made. -/
def fetch_story (co : Collaborators) (data : GraphState) :
    Except PipelineError StateUpdate × List CallEvent :=
  let issue_key := data.issue_key
  match co.fetch_issue issue_key with
  | .error e => (.error (.trackerError e), [.fetchIssue issue_key])
  | .ok issue =>
    match build_story issue with
    | .error e => (.error (.pyError e), [.fetchIssue issue_key])
    | .ok story => (.ok { jira_story := some story }, [.fetchIssue issue_key])

/-- Stage 3, `generate_cases`: renders the prompt from `data.jira_story`
(attribute access on `None` raises), posts it to the model endpoint, splits
the returned text into non-empty trimmed lines, and returns
`{"test_cases": test_cases}`. -/
def generate_cases (co : Collaborators) (data : GraphState) :
    Except PipelineError StateUpdate × List CallEvent :=
  match data.jira_story with
  | none => (.error (.pyError .attributeError), [])
  | some story =>
    let prompt := build_prompt story
    match co.complete prompt with
    | .error e => (.error (.modelError e), [.modelComplete prompt])
    | .ok text => (.ok { test_cases := some (extract_test_cases text) }, [.modelComplete prompt])

/-- Stage 4, `update_jira`: formats `data.test_cases` as the comment body
(iterating `None` raises), calls `jira_client.add_comment(issue_key, body)`,
and returns `{"update_status": ...}`. -/
def update_jira (co : Collaborators) (data : GraphState) :
    Except PipelineError StateUpdate × List CallEvent :=
  let issue_key := data.issue_key
  match data.test_cases with
  | none => (.error (.pyError .typeError), [])
  | some tcs =>
    let body := comment_body tcs
    match co.add_comment issue_key body with
    | .error e => (.error (.trackerError e), [.addComment issue_key body])
    | .ok _ => (.ok { update_status := some (status_message issue_key) }, [.addComment issue_key body])

/-- The compiled graph run on `{"issue_key": key}`: the four stages execute
in the fixed linear order, each successful partial update merged into the
running state; a failing stage aborts the run and surfaces its failure.
The second component is the trace of collaborator calls, in order. -/
def runPipeline (co : Collaborators) (key : String) :
    Except PipelineError GraphState × List CallEvent :=
  let s0 : GraphState := { issue_key := some key }
  let s1 := mergeState s0 (start s0)
  match fetch_story co s1 with
  | (.error e, ev1) => (.error e, ev1)
  | (.ok u1, ev1) =>
    let s2 := mergeState s1 u1
    match generate_cases co s2 with
    | (.error e, ev2) => (.error e, ev1 ++ ev2)
    | (.ok u2, ev2) =>
      let s3 := mergeState s2 u2
      match update_jira co s3 with
      | (.error e, ev3) => (.error e, ev1 ++ ev2 ++ ev3)
      | (.ok u3, ev3) => (.ok (mergeState s3 u3), ev1 ++ ev2 ++ ev3)

/-- `needle` occurs verbatim as a contiguous substring of `haystack`. -/
def isSubstringOf (needle haystack : String) : Prop :=
  ∃ pre post, haystack = pre ++ needle ++ post

/-- The collaborators of the spec's end-to-end scenario: the tracker returns
the PROJ-42 issue, the model returns `"Case A\nCase B\n"`, comments succeed. -/
def c2Collaborators : Collaborators where
  fetch_issue := fun _ => .ok ⟨some "PROJ-42", some "Reset password", some "Intro\n- step one\n- step two"⟩
  complete := fun _ => .ok "Case A\nCase B\n"
  add_comment := fun _ _ => .ok ()

/-- Collaborators whose tracker reports every issue as not found. -/
def notFoundCollaborators : Collaborators where
  fetch_issue := fun _ => .error .notFound
  complete := fun _ => .ok ""
  add_comment := fun _ _ => .ok ()

/-- A concrete story used to instantiate universally quantified theorems. -/
def demoStory : JiraStory where
  key := "DEMO-1"
  summary := "Demo summary"
  description := "Demo description\n- crit one"
  acceptance_criteria := ["- crit one"]

/-- Concrete, always-succeeding collaborators for instantiating theorems. -/
def demoCollaborators : Collaborators where
  fetch_issue := fun _ => .ok ⟨some "DEMO-1", some "Demo summary", some "Demo description\n- crit one"⟩
  complete := fun _ => .ok "Case X\n\nCase Y"
  add_comment := fun _ _ => .ok ()

/-- A concrete mid-run state with every field the later stages read populated. -/
def demoState : GraphState where
  issue_key := some "DEMO-1"
  jira_story := some demoStory
  test_cases := some ["Case X"]
  update_status := none

/-- The source's extraction comprehension agrees with the spec's
trim-then-filter formulation on every description. -/
theorem extract_eq_spec_acceptance (d : String) :
    extract_acceptance_criteria d = spec_acceptance_criteria d := by
  simp only [extract_acceptance_criteria, spec_acceptance_criteria]
  rw [filter_map_comm]

/-- `build_story` on a raw issue with all fields present succeeds and puts
the spec-side acceptance criteria in the story. -/
theorem build_story_ok (k s d : String) :
    build_story ⟨some k, some s, some d⟩ = .ok ⟨k, s, d, spec_acceptance_criteria d⟩ := by
  simp only [build_story, mkJiraStory, extract_eq_spec_acceptance]

/-- C1: for every description (and any present key and summary), the story
built by `fetch_story` is constructed successfully and its
`acceptance_criteria` is exactly the ordered list of trimmed lines of the
description that start with `-`, preserving source order, duplicates
allowed, all non-matching lines excluded. -/
theorem C1_acceptance_criteria (k s d : String) :
    build_story ⟨some k, some s, some d⟩ = .ok ⟨k, s, d, spec_acceptance_criteria d⟩ :=
  build_story_ok k s d

/-- C2: the end-to-end scenario.  With the tracker returning the PROJ-42
issue and the model returning `"Case A\nCase B\n"`, the run succeeds with
`acceptance_criteria = ["- step one", "- step two"]`,
`test_cases = ["Case A", "Case B"]`, status
`"Test cases added to JIRA issue PROJ-42"`, and the trace shows the
comment body `"### Generated Test Cases:\n- Case A\n- Case B"` passed to
`add_comment`. -/
theorem C2_end_to_end :
    runPipeline c2Collaborators "PROJ-42" =
      (.ok { issue_key := some "PROJ-42",
             jira_story := some { key := "PROJ-42", summary := "Reset password",
                                  description := "Intro\n- step one\n- step two",
                                  acceptance_criteria := ["- step one", "- step two"] },
             test_cases := some ["Case A", "Case B"],
             update_status := some "Test cases added to JIRA issue PROJ-42" },
       [.fetchIssue (some "PROJ-42"),
        .modelComplete (build_prompt ⟨"PROJ-42", "Reset password",
          "Intro\n- step one\n- step two", ["- step one", "- step two"]⟩),
        .addComment (some "PROJ-42") "### Generated Test Cases:\n- Case A\n- Case B"]) := by
  rfl

/-- C3: whenever the tracker's `fetch_issue` reports the issue as not
found, the run surfaces a `TrackerError`, and the trace holds only that one
tracker call: the model is never called, `add_comment` is never called, and
no final state is produced. -/
theorem C3_not_found_aborts (co : Collaborators) (key : String)
    (h : co.fetch_issue (some key) = .error .notFound) :
    (runPipeline co key).1 = .error (.trackerError .notFound) ∧
    (runPipeline co key).2 = [.fetchIssue (some key)] := by
  simp [runPipeline, mergeState, start, fetch_story, h]

/-- Witness for C3 at `issue_key = "MISSING-1"`. -/
theorem C3_not_found_aborts_witness :
    (runPipeline notFoundCollaborators "MISSING-1").1 = .error (.trackerError .notFound) ∧
    (runPipeline notFoundCollaborators "MISSING-1").2 = [.fetchIssue (some "MISSING-1")] :=
  C3_not_found_aborts notFoundCollaborators "MISSING-1" rfl

/-- C9: Pydantic construction of `JiraStory` fails with a `ValidationError`
whenever the raw `key` or `summary` field is missing. -/
theorem C9_missing_key_or_summary (key summary description : Option String)
    (ac : List String) (h : key = none ∨ summary = none) :
    mkJiraStory key summary description ac = .error .validationError := by
  rcases h with h | h <;> subst h
  · cases summary <;> cases description <;> rfl
  · cases key <;> cases description <;> rfl

/-- Witness for C9: a raw result with a missing key. -/
theorem C9_missing_key_or_summary_witness :
    mkJiraStory none (some "Reset password") (some "Intro") [] = .error .validationError :=
  C9_missing_key_or_summary none (some "Reset password") (some "Intro") [] (Or.inl rfl)

/-- C10: when `test_cases` is the empty list, `update_jira` still calls
`add_comment`, with the body consisting of exactly the heading line and no
bullets, and (when the comment call succeeds) still stores the success
status string for the issue key. -/
theorem C10_empty_test_cases (co : Collaborators) (s : GraphState)
    (h : s.test_cases = some []) :
    (update_jira co s).2 = [.addComment s.issue_key "### Generated Test Cases:\n"] ∧
    (co.add_comment s.issue_key "### Generated Test Cases:\n" = .ok () →
      (update_jira co s).1 = .ok { update_status := some (status_message s.issue_key) }) := by
  have hb : comment_body [] = "### Generated Test Cases:\n" := rfl
  cases h2 : co.add_comment s.issue_key "### Generated Test Cases:\n" with
  | error e => simp [update_jira, h, hb, h2]
  | ok u => simp [update_jira, h, hb, h2]

/-- Witness for C10 at issue key PROJ-7. -/
theorem C10_empty_test_cases_witness :
    (update_jira demoCollaborators { issue_key := some "PROJ-7", test_cases := some [] }).2 =
      [.addComment (some "PROJ-7") "### Generated Test Cases:\n"] ∧
    (update_jira demoCollaborators { issue_key := some "PROJ-7", test_cases := some [] }).1 =
      .ok { update_status := some (status_message (some "PROJ-7")) } := by
  have h := C10_empty_test_cases demoCollaborators
    { issue_key := some "PROJ-7", test_cases := some [] } rfl
  exact ⟨h.1, h.2 rfl⟩

/-- C4: for a present description with zero dash-prefixed lines the
extraction in `fetch_story` succeeds and yields the empty list; but for an
absent (`None`) description — which the data model allows — `fetch_story`
raises an `AttributeError` from `None.split("\n")` instead of succeeding. -/
theorem C4_zero_dash_lines :
    (∀ k s d : String, spec_acceptance_criteria d = [] →
      build_story ⟨some k, some s, some d⟩ = .ok ⟨k, s, d, []⟩) ∧
    build_story ⟨some "PROJ-9", some "Reset password", none⟩ = .error .attributeError := by
  constructor
  · intro k s d hd
    have h1 := build_story_ok k s d
    rw [hd] at h1
    exact h1
  · rfl

/-- Witness for C4 at a dash-free description. -/
theorem C4_zero_dash_lines_witness :
    build_story ⟨some "PROJ-9", some "Reset password", some "Intro only\nno bullets here"⟩ =
      .ok ⟨"PROJ-9", "Reset password", "Intro only\nno bullets here", []⟩ :=
  C4_zero_dash_lines.1 "PROJ-9" "Reset password" "Intro only\nno bullets here" (by decide)

/-- C5: the prompt that `generate_cases` sends to the model collaborator
contains the story's summary, its description, and the comma-joined
acceptance criteria, each verbatim as a substring. -/
theorem C5_prompt_contains (story : JiraStory) :
    isSubstringOf story.summary (build_prompt story) ∧
    isSubstringOf story.description (build_prompt story) ∧
    isSubstringOf (pyJoin ", " story.acceptance_criteria) (build_prompt story) := by
  refine ⟨⟨"\n    Generate test cases for the following JIRA story:\n\n    Title: ",
      "\n    Description: " ++ story.description ++ "\n    Acceptance Criteria:\n    "
        ++ pyJoin ", " story.acceptance_criteria
        ++ "\n\n    Please provide detailed test cases.\n    ", ?_⟩,
    ⟨"\n    Generate test cases for the following JIRA story:\n\n    Title: "
        ++ story.summary ++ "\n    Description: ",
      "\n    Acceptance Criteria:\n    " ++ pyJoin ", " story.acceptance_criteria
        ++ "\n\n    Please provide detailed test cases.\n    ", ?_⟩,
    ⟨"\n    Generate test cases for the following JIRA story:\n\n    Title: "
        ++ story.summary ++ "\n    Description: " ++ story.description
        ++ "\n    Acceptance Criteria:\n    ",
      "\n\n    Please provide detailed test cases.\n    ", ?_⟩⟩ <;>
  simp [build_prompt, String.append_assoc]

/-- C6: `generate_cases` stores as `test_cases` exactly the non-empty
trimmed lines of the model's returned text, in order; a returned text
consisting only of blank lines yields the empty sequence. -/
theorem C6_test_cases_lines :
    (∀ text : String, extract_test_cases text = spec_test_cases text) ∧
    (∀ (co : Collaborators) (data : GraphState) (story : JiraStory) (text : String),
      data.jira_story = some story → co.complete (build_prompt story) = .ok text →
      (generate_cases co data).1 = .ok { test_cases := some (spec_test_cases text) }) ∧
    extract_test_cases "\n   \n\t\n" = [] := by
  have key : ∀ text : String, extract_test_cases text = spec_test_cases text := by
    intro text
    simp only [extract_test_cases, spec_test_cases]
    rw [filter_map_comm]
  refine ⟨key, ?_, by decide⟩
  intro co data story text hs ht
  simp [generate_cases, hs, ht, key]

/-- Witness for C6: the demo collaborators return `"Case X\n\nCase Y"`. -/
theorem C6_test_cases_lines_witness :
    (generate_cases demoCollaborators demoState).1 = .ok { test_cases := some ["Case X", "Case Y"] } := by
  have h := C6_test_cases_lines.2.1 demoCollaborators demoState demoStory "Case X\n\nCase Y" rfl rfl
  have he : spec_test_cases "Case X\n\nCase Y" = ["Case X", "Case Y"] := by decide
  rw [he] at h
  exact h

/-- Rebuilding a string from its character data is the identity. -/
theorem mk_data (s : String) : String.mk s.data = s := by
  cases s
  rfl

/-- `String.mk` is a left inverse of `String.data` on lists of strings. -/
theorem map_mk_map_data (l : List String) : (l.map String.data).map String.mk = l := by
  induction l with
  | nil => rfl
  | cons s rest ih => simp [mk_data, ih]

/-- A chunk with no newline splits into the single line that is itself. -/
theorem splitLinesList_no_newline (l : List Char) (h : '\n' ∉ l) :
    splitLinesList l = [l] := by
  induction l with
  | nil => rfl
  | cons c cs ih =>
    rw [List.mem_cons] at h
    push_neg at h
    have hc : ¬ (c = '\n') := fun e => h.1 e.symm
    simp [splitLinesList, hc, ih h.2]

/-- Splitting at the first newline: a newline-free chunk followed by a
newline peels off as the first line. -/
theorem splitLinesList_append (l₁ l₂ : List Char) (h : '\n' ∉ l₁) :
    splitLinesList (l₁ ++ '\n' :: l₂) = l₁ :: splitLinesList l₂ := by
  induction l₁ with
  | nil => simp [splitLinesList]
  | cons c cs ih =>
    rw [List.mem_cons] at h
    push_neg at h
    have hc : ¬ (c = '\n') := fun e => h.1 e.symm
    simp [splitLinesList, hc, ih h.2]

/-- Splitting a newline-join of newline-free chunks recovers the chunks. -/
theorem splitLinesList_pyJoin (strs : List String) (hne : strs ≠ [])
    (h : ∀ s ∈ strs, '\n' ∉ s.data) :
    splitLinesList (pyJoin "\n" strs).data = strs.map String.data := by
  induction strs with
  | nil => exact absurd rfl hne
  | cons s rest ih =>
    cases rest with
    | nil =>
      simp only [pyJoin, List.map]
      exact splitLinesList_no_newline s.data (h s (by simp))
    | cons r rs =>
      have hdata : (s ++ "\n" ++ pyJoin "\n" (r :: rs)).data
          = s.data ++ '\n' :: (pyJoin "\n" (r :: rs)).data := by
        simp [String.data_append]
      rw [pyJoin, hdata, splitLinesList_append _ _ (h s (by simp)),
        ih (List.cons_ne_nil r rs) (fun t ht => h t (List.mem_cons_of_mem s ht))]
      · rfl
      · exact fun hcontra => List.noConfusion hcontra

/-- C7: the comment body that `update_jira` sends to `add_comment` begins
with the fixed heading `"### Generated Test Cases:"`, and its lines are the
heading followed by exactly one markdown bullet `"- <entry>"` per entry of
`test_cases`, in the same order (for an empty list there are no bullets,
only a trailing empty line). -/
theorem C7_comment_body_bullets (tcs : List String) :
    (∃ rest, comment_body tcs = "### Generated Test Cases:" ++ rest) ∧
    ((∀ tc ∈ tcs, '\n' ∉ tc.data) →
      splitLines (comment_body tcs) =
        "### Generated Test Cases:" ::
          (if tcs = [] then [""] else tcs.map (fun tc => "- " ++ tc))) := by
  constructor
  · refine ⟨"\n" ++ pyJoin "\n" (tcs.map (fun tc => "- " ++ tc)), ?_⟩
    show "### Generated Test Cases:\n" ++ pyJoin "\n" (tcs.map (fun tc => "- " ++ tc)) = _
    rw [show ("### Generated Test Cases:\n" : String) = "### Generated Test Cases:" ++ "\n" from rfl,
      String.append_assoc]
  · intro h
    have hdata : (comment_body tcs).data
        = "### Generated Test Cases:".data
            ++ '\n' :: (pyJoin "\n" (tcs.map (fun tc => "- " ++ tc))).data := by
      show ("### Generated Test Cases:\n" ++ pyJoin "\n" (tcs.map (fun tc => "- " ++ tc))).data = _
      rw [String.data_append]
      rfl
    rw [splitLines, hdata, splitLinesList_append _ _ (by decide)]
    by_cases htcs : tcs = []
    · subst htcs
      simp only [if_pos]
      show List.map String.mk ["### Generated Test Cases:".data, ("" : String).data]
        = ["### Generated Test Cases:", ""]
      simp [mk_data]
    · rw [if_neg htcs]
      rw [splitLinesList_pyJoin _ (fun hm => htcs (List.map_eq_nil_iff.mp hm)) ?_]
      · rw [List.map_cons, map_mk_map_data, mk_data]
      · intro t ht
        rw [List.mem_map] at ht
        obtain ⟨a, ha, rfl⟩ := ht
        rw [String.data_append]
        intro hmem
        rcases List.mem_append.mp hmem with hin | hin
        · exact absurd hin (by decide)
        · exact h a ha hin

/-- Witness for C7 at `test_cases = ["Case A", "Case B"]`. -/
theorem C7_comment_body_bullets_witness :
    (∃ rest, comment_body ["Case A", "Case B"] = "### Generated Test Cases:" ++ rest) ∧
    splitLines (comment_body ["Case A", "Case B"]) =
      ["### Generated Test Cases:", "- Case A", "- Case B"] := by
  have h := C7_comment_body_bullets ["Case A", "Case B"]
  have h2 := h.2 (by decide)
  rw [if_neg (by decide)] at h2
  exact ⟨h.1, h2⟩

/-- C8: each stage populates only the single state field it owns and leaves
every other field unchanged: `start` merges back into the identity on the
whole state (pass-through of `issue_key`), a successful `fetch_story`
changes only `jira_story` (to the story in its update), a successful
`generate_cases` changes only `test_cases`, and a successful `update_jira`
changes only `update_status`. -/
theorem C8_stage_frame (co : Collaborators) (s : GraphState) :
    mergeState s (start s) = s ∧
    (∀ u ev, fetch_story co s = (.ok u, ev) →
      (mergeState s u).issue_key = s.issue_key ∧
      (mergeState s u).test_cases = s.test_cases ∧
      (mergeState s u).update_status = s.update_status ∧
      (mergeState s u).jira_story = u.jira_story) ∧
    (∀ u ev, generate_cases co s = (.ok u, ev) →
      (mergeState s u).issue_key = s.issue_key ∧
      (mergeState s u).jira_story = s.jira_story ∧
      (mergeState s u).update_status = s.update_status ∧
      (mergeState s u).test_cases = u.test_cases) ∧
    (∀ u ev, update_jira co s = (.ok u, ev) →
      (mergeState s u).issue_key = s.issue_key ∧
      (mergeState s u).jira_story = s.jira_story ∧
      (mergeState s u).test_cases = s.test_cases ∧
      (mergeState s u).update_status = u.update_status) := by
  refine ⟨rfl, ?_, ?_, ?_⟩
  · intro u ev hf
    cases hfi : co.fetch_issue s.issue_key with
    | error e => simp [fetch_story, hfi] at hf
    | ok issue =>
      cases hbs : build_story issue with
      | error e => simp [fetch_story, hfi, hbs] at hf
      | ok story =>
        simp [fetch_story, hfi, hbs] at hf
        obtain ⟨hu, hev⟩ := hf
        subst hu
        exact ⟨rfl, rfl, rfl, rfl⟩
  · intro u ev hg
    cases hjs : s.jira_story with
    | none => simp [generate_cases, hjs] at hg
    | some story =>
      cases hc : co.complete (build_prompt story) with
      | error e => simp [generate_cases, hjs, hc] at hg
      | ok text =>
        simp [generate_cases, hjs, hc] at hg
        obtain ⟨hu, hev⟩ := hg
        subst hu
        exact ⟨rfl, hjs, rfl, rfl⟩
  · intro u ev hu2
    cases htc : s.test_cases with
    | none => simp [update_jira, htc] at hu2
    | some tcs =>
      cases hac : co.add_comment s.issue_key (comment_body tcs) with
      | error e => simp [update_jira, htc, hac] at hu2
      | ok r =>
        simp [update_jira, htc, hac] at hu2
        obtain ⟨hu, hev⟩ := hu2
        subst hu
        exact ⟨rfl, rfl, htc, rfl⟩

/-- Witness for C8 on a fully populated mid-run state with succeeding
collaborators. -/
theorem C8_stage_frame_witness :
    mergeState demoState (start demoState) = demoState ∧
    ((mergeState demoState { jira_story := some demoStory }).issue_key = demoState.issue_key ∧
     (mergeState demoState { jira_story := some demoStory }).test_cases = demoState.test_cases ∧
     (mergeState demoState { jira_story := some demoStory }).update_status = demoState.update_status ∧
     (mergeState demoState { jira_story := some demoStory }).jira_story =
       ({ jira_story := some demoStory } : StateUpdate).jira_story) ∧
    ((mergeState demoState { test_cases := some ["Case X", "Case Y"] }).issue_key = demoState.issue_key ∧
     (mergeState demoState { test_cases := some ["Case X", "Case Y"] }).jira_story = demoState.jira_story ∧
     (mergeState demoState { test_cases := some ["Case X", "Case Y"] }).update_status = demoState.update_status ∧
     (mergeState demoState { test_cases := some ["Case X", "Case Y"] }).test_cases =
       ({ test_cases := some ["Case X", "Case Y"] } : StateUpdate).test_cases) ∧
    ((mergeState demoState { update_status := some (status_message (some "DEMO-1")) }).issue_key = demoState.issue_key ∧
     (mergeState demoState { update_status := some (status_message (some "DEMO-1")) }).jira_story = demoState.jira_story ∧
     (mergeState demoState { update_status := some (status_message (some "DEMO-1")) }).test_cases = demoState.test_cases ∧
     (mergeState demoState { update_status := some (status_message (some "DEMO-1")) }).update_status =
       ({ update_status := some (status_message (some "DEMO-1")) } : StateUpdate).update_status) := by
  have h := C8_stage_frame demoCollaborators demoState
  exact ⟨h.1,
    h.2.1 { jira_story := some demoStory }
      [CallEvent.fetchIssue (some "DEMO-1")] rfl,
    h.2.2.1 { test_cases := some ["Case X", "Case Y"] }
      [CallEvent.modelComplete (build_prompt demoStory)] rfl,
    h.2.2.2 { update_status := some (status_message (some "DEMO-1")) }
      [CallEvent.addComment (some "DEMO-1") (comment_body ["Case X"])] rfl⟩
